import Mathlib

/-!
Verification development for the conversation flow manager
(src/src/pipecat_flows/manager.py).

The Python class FlowManager is shallow-embedded as a pure state-transition
system.  Python dict truthiness, Optional values and the order of state
mutations are modelled explicitly.  Handler invocations are modelled by the
outcome the handler produces on the one invocation under study (the handler
itself is external user code); the external result callback is modelled by
flags saying whether its first and second call raise.
-/

/-- Context strategies, from pipecat_flows.types.ContextStrategy. -/
inductive ContextStrategy where
  | APPEND
  | RESET
  | RESET_WITH_SUMMARY
deriving DecidableEq, Repr

/-- Context strategy configuration: the strategy plus the optional
summary prompt (validated to exist for RESET_WITH_SUMMARY). -/
structure ContextStrategyConfig where
  strategy : ContextStrategy
  summary_prompt : Option String
deriving DecidableEq, Repr

/-- An action configuration: its type tag and whether a callable handler
is supplied inline.  The handler body is external and not modelled. -/
structure ActionConfig where
  atype : String
  hasHandler : Bool
deriving DecidableEq, Repr

/-- Result value returned by a function handler / delivered to the LLM.
acknowledged models the dict with status acknowledged, error models the
dict with status error built in the except branch of transition_func. -/
inductive FuncResult where
  | acknowledged
  | error (msg : String)
  | value (v : String)
deriving DecidableEq, Repr

mutual

/-- A node configuration (pipecat_flows.types.NodeConfig, a TypedDict).
Every field is Option to model presence or absence of the dict key. -/
inductive NodeConfig where
  | mk (name : Option String) (role_messages : Option (List String))
      (task_messages : Option (List String)) (functions : Option (List FuncConfig))
      (pre_actions : Option (List ActionConfig)) (post_actions : Option (List ActionConfig))
      (context_strategy : Option ContextStrategyConfig) (respond_immediately : Option Bool)

/-- One entry of a node configuration functions list: either a
FlowsFunctionSchema (name, optional handler, optional transition_to,
optional transition_callback, the callback modelled by its parameter
count) or a direct function (wrapped in FlowsDirectFunctionWrapper). -/
inductive FuncConfig where
  | schema (name : String) (handler : Option HandlerSpec) (transition_to : Option String)
      (transition_callback : Option Nat)
  | direct (name : String) (outcome : HandlerOutcome)

/-- A resolved function handler: whether it is a FlowsDirectFunctionWrapper
and the outcome its invocation produces for the call under study. -/
inductive HandlerSpec where
  | mk (isDirect : Bool) (outcome : HandlerOutcome)

/-- Outcome of invoking a handler: it raises, it returns a bare result
(legacy shape), or it returns a consolidated pair (result, next_node)
where the result may be None. -/
inductive HandlerOutcome where
  | raises (msg : String)
  | bare (r : FuncResult)
  | consolidated (r : Option FuncResult) (next_node : Option NextNode)

/-- A next node returned by a consolidated handler: either a node name
(static flow) or an inline node configuration (dynamic flow). -/
inductive NextNode where
  | named (s : String)
  | inline (cfg : NodeConfig)

end

/-- Python truthiness of an optional string (None and the empty string
are falsy). -/
def pyTruthyStr : Option String → Bool
  | none => false
  | some s => if s = "" then false else true

/-- Python truthiness of a NodeConfig viewed as a dict: the empty dict
(no keys present) is falsy. -/
def NodeConfig.isEmptyDict : NodeConfig → Bool
  | .mk none none none none none none none none => true
  | _ => false

/-- Python truthiness of a next-node value: an empty node name or an
empty inline config dict is falsy. -/
def NextNode.pyTruthy : NextNode → Bool
  | .named s => if s = "" then false else true
  | .inline cfg => !cfg.isEmptyDict

/-- Python truthiness of an optional next node. -/
def pyTruthyNext : Option NextNode → Bool
  | none => false
  | some nn => nn.pyTruthy

/-- Arguments of a function call, as a key/value list. -/
abbrev FlowArgs := List (String × String)

/-- The transition information dict stored in self._pending_transition by
transition_func when an edge function completes. -/
structure TransitionInfo where
  next_node : Option NextNode
  transition_to : Option String
  transition_callback : Option Nat
  function_name : String
  arguments : FlowArgs
  result : FuncResult

/-- The FunctionCallResultProperties passed to the result callback:
run_llm, and whether on_context_updated is set (it is set exactly to
_check_and_execute_transition for edge functions). -/
structure CallProps where
  run_llm : Bool
  onContextUpdated : Bool
deriving DecidableEq, Repr

/-- Observable outcome of one run of transition_func: the results
actually delivered through the result callback (with their properties;
the except branch passes no properties), the pending transition record
afterwards, and whether an exception escaped transition_func. -/
structure InvokeOutcome where
  delivered : List (FuncResult × Option CallProps)
  pending : Option TransitionInfo
  raised : Bool

/-- Step 1 and 2 of the invocation contract: execute the handler if
present.  No handler yields the acknowledged result (transition-only).
A consolidated pair with None result substitutes the acknowledged result.
A direct function returning a bare value is an InvalidFunctionError. -/
def handlerStep : Option HandlerSpec → Except String (FuncResult × Option NextNode)
  | none => .ok (.acknowledged, none)
  | some (.mk isDirect outcome) =>
    match outcome with
    | .raises m => .error m
    | .bare r =>
      if isDirect then .error "Direct function expected to return a tuple"
      else .ok (r, none)
    | .consolidated r nn =>
      match r with
      | none => .ok (.acknowledged, nn)
      | some rv => .ok (rv, nn)

/-- The except branch of transition_func: deliver the error-status result
through the result callback; nextRaises says whether that callback call
itself raises, in which case the exception escapes transition_func. -/
def exceptDeliver (p : Option TransitionInfo) (nextRaises : Bool) (m : String) : InvokeOutcome :=
  if nextRaises then { delivered := [], pending := p, raised := true }
  else { delivered := [(.error m, none)], pending := p, raised := false }

/-- The inner transition_func created by _create_transition_func
(manager.py lines 351-424).  cb0 and cb1 say whether the first and the
second call of params.result_callback raise.  pending0 is the value of
self._pending_transition when the invocation starts. -/
def transition_func (name : String) (handler : Option HandlerSpec)
    (transition_to : Option String) (transition_callback : Option Nat)
    (arguments : FlowArgs) (cb0 cb1 : Bool)
    (pending0 : Option TransitionInfo) : InvokeOutcome :=
  match handlerStep handler with
  | .error m => exceptDeliver pending0 cb0 m
  | .ok (result, next_node) =>
    let is_edge := pyTruthyNext next_node || pyTruthyStr transition_to
      || transition_callback.isSome
    if is_edge then
      let info : TransitionInfo :=
        { next_node := next_node, transition_to := transition_to,
          transition_callback := transition_callback, function_name := name,
          arguments := arguments, result := result }
      if cb0 then exceptDeliver (some info) cb1 "result_callback raised"
      else { delivered := [(result, some { run_llm := false, onContextUpdated := true })],
             pending := some info, raised := false }
    else
      if cb0 then exceptDeliver pending0 cb1 "result_callback raised"
      else { delivered := [(result, some { run_llm := true, onContextUpdated := false })],
             pending := pending0, raised := false }

/-- Accessor for the name field of a node configuration dict. -/
def NodeConfig.name : NodeConfig → Option String
  | .mk n _ _ _ _ _ _ _ => n

/-- Accessor for the role_messages field of a node configuration dict. -/
def NodeConfig.role_messages : NodeConfig → Option (List String)
  | .mk _ r _ _ _ _ _ _ => r

/-- Accessor for the task_messages field of a node configuration dict. -/
def NodeConfig.task_messages : NodeConfig → Option (List String)
  | .mk _ _ t _ _ _ _ _ => t

/-- Accessor for the functions field of a node configuration dict. -/
def NodeConfig.functions : NodeConfig → Option (List FuncConfig)
  | .mk _ _ _ f _ _ _ _ => f

/-- Accessor for the pre_actions field of a node configuration dict. -/
def NodeConfig.pre_actions : NodeConfig → Option (List ActionConfig)
  | .mk _ _ _ _ p _ _ _ => p

/-- Accessor for the post_actions field of a node configuration dict. -/
def NodeConfig.post_actions : NodeConfig → Option (List ActionConfig)
  | .mk _ _ _ _ _ p _ _ => p

/-- Accessor for the context_strategy field of a node configuration dict. -/
def NodeConfig.context_strategy : NodeConfig → Option ContextStrategyConfig
  | .mk _ _ _ _ _ _ c _ => c

/-- Accessor for the respond_immediately field of a node configuration dict. -/
def NodeConfig.respond_immediately : NodeConfig → Option Bool
  | .mk _ _ _ _ _ _ _ r => r

/-- Name under which a functions-list entry is registered. -/
def FuncConfig.fname : FuncConfig → String
  | .schema n _ _ _ => n
  | .direct n _ => n

/-- Handler carried by a functions-list entry; a direct function is
wrapped in a FlowsDirectFunctionWrapper, hence isDirect is true. -/
def FuncConfig.fhandler : FuncConfig → Option HandlerSpec
  | .schema _ h _ _ => h
  | .direct _ o => some (.mk true o)

/-- transition_to declared by a functions-list entry (never for direct
functions). -/
def FuncConfig.ftransition_to : FuncConfig → Option String
  | .schema _ _ t _ => t
  | .direct _ _ => none

/-- transition_callback declared by a functions-list entry (never for
direct functions). -/
def FuncConfig.ftransition_callback : FuncConfig → Option Nat
  | .schema _ _ _ c => c
  | .direct _ _ => none

/-- Frames queued to the pipeline task: the messages update (replace)
frame, the messages append frame, the tools update frame, and the
context frame queued to trigger an immediate completion. -/
inductive Frame where
  | messagesUpdate (messages : List String)
  | messagesAppend (messages : List String)
  | setTools (tools : List String)
  | contextFrame
deriving DecidableEq, Repr

/-- Outcome of the bounded summarization call in _update_llm_context:
either asyncio.wait_for times out after 5 seconds, or the adapter call
returns an optional summary string. -/
inductive SummaryOutcome where
  | timeout
  | ok (s : Option String)
deriving DecidableEq, Repr

/-- True when the summarization outcome makes _update_llm_context fall
back to RESET: a timeout, or a falsy (absent or empty) summary. -/
def summaryFellBack : SummaryOutcome → Bool
  | .timeout => true
  | .ok s => !pyTruthyStr s

/-- The mutable state of a FlowManager instance.  The fields mirror the
attributes set in FlowManager.__init__ that the claims are about.
context_messages models the message list held by the external context
aggregator.  queued_frames, executed_actions, logged_warnings,
commit_log and set_node_log are observation instruments: they record, in
order, the frames queued to the task, the actions run by the action
manager, the warnings logged, the transition records committed by
_check_and_execute_transition, and the node ids successfully set. -/
structure FlowManager where
  initialized : Bool
  nodes : List (String × NodeConfig)
  pending_transition : Option TransitionInfo
  context_strategy : ContextStrategyConfig
  current_node : Option String
  current_functions : Finset String
  action_handlers : List String
  deferred_post_actions : Option (List ActionConfig)
  context_messages : List String
  queued_frames : List Frame
  executed_actions : List ActionConfig
  logged_warnings : List String
  commit_log : List TransitionInfo
  set_node_log : List String

/-- Result of _set_node: normal return with the new state, or a raised
error together with the state at the moment of the raise (mutations made
before the raise persist, as in Python). -/
inductive SetNodeResult where
  | ok (st : FlowManager)
  | err (msg : String) (st : FlowManager)

/-- True when a _set_node call returned normally. -/
def SetNodeResult.isOk : SetNodeResult → Bool
  | .ok _ => true
  | .err _ _ => false

/-- The FlowManager state after a _set_node call, successful or not. -/
def SetNodeResult.state : SetNodeResult → FlowManager
  | .ok st => st
  | .err _ st => st

/-- _validate_node_config (manager.py lines 836-927).  The only failing
check for the modelled configuration shapes is the missing task_messages
key; schema entries always have a known format, direct functions pass
FlowsDirectFunctionWrapper.validate_function, and the remaining checks
only log warnings, which do not fail validation. -/
def validate_node_config (node_id : String) (cfg : NodeConfig) : Except String Unit :=
  if cfg.task_messages.isNone then
    .error ("Node " ++ node_id ++ " missing required task_messages field")
  else .ok ()

/-- _register_action_from_config applied to each action of the node
(manager.py lines 264-287), threading the registered handler-type list:
a falsy or already-registered type is skipped, an inline handler is
registered, a built-in type needs no handler, anything else raises
ActionError.  On error the partially extended list persists. -/
def register_actions_from_config (handlers : List String) :
    List ActionConfig → Except (String × List String) (List String)
  | [] => .ok handlers
  | a :: rest =>
    if a.atype = "" then register_actions_from_config handlers rest
    else if handlers.contains a.atype then register_actions_from_config handlers rest
    else if a.hasHandler then register_actions_from_config (handlers ++ [a.atype]) rest
    else if a.atype = "tts_say" ∨ a.atype = "end_conversation" then
      register_actions_from_config handlers rest
    else .error ("Action " ++ a.atype ++ " not registered", handlers)

/-- The _register_function loop of _set_node (manager.py lines 503-546
and 648-699): a name already in self.current_functions is skipped
entirely; otherwise _create_transition_func raises ValueError when both
transition_to and transition_callback are truthy, and on success the
name is added to the new_functions set. -/
def register_functions (current : Finset String) :
    Finset String → List FuncConfig → Except String (Finset String)
  | acc, [] => .ok acc
  | acc, f :: rest =>
    if f.fname ∈ current then register_functions current acc rest
    else if pyTruthyStr f.ftransition_to && f.ftransition_callback.isSome then
      .error ("Function registration failed: Function " ++ f.fname
        ++ " cannot have both transition_to and transition_callback")
    else register_functions current (insert f.fname acc) rest

/-- Modelled from the spec: adapter.format_summary_message (adapters.py
is not part of the sources).  The summary is turned into a single
message prepended to the new message list. -/
def mkSummaryMessage (s : String) : String := "SUMMARY: " ++ s

/-- The summarization step of _update_llm_context (manager.py lines
769-797): when the effective strategy is RESET_WITH_SUMMARY and the
aggregator context is nonempty, a truthy summary is prepended to the
messages; a timeout or a falsy summary falls back to RESET with a
warning.  Returns (messages, effective strategy, warning logged). -/
def summaryStep (strat : ContextStrategy) (ctxNonempty : Bool) (messages : List String)
    (o : SummaryOutcome) : List String × ContextStrategy × Bool :=
  if strat = ContextStrategy.RESET_WITH_SUMMARY ∧ ctxNonempty then
    match o with
    | .timeout => (messages, ContextStrategy.RESET, true)
    | .ok s =>
      if pyTruthyStr s then (mkSummaryMessage (s.getD "") :: messages, strat, false)
      else (messages, ContextStrategy.RESET, true)
  else (messages, strat, false)

/-- _update_llm_context (manager.py lines 750-818).  strategyArg is the
per-node override; the effective config is the override or else
self._context_strategy.  When the fallback fires on the engine-wide
default config, the shared config object itself is mutated to RESET.
The messages frame is an update (replace) frame for the first node or a
RESET or RESET_WITH_SUMMARY strategy, otherwise an append frame; it is
queued together with the tools frame. -/
def update_llm_context (st : FlowManager) (messages : List String) (tools : List String)
    (strategyArg : Option ContextStrategyConfig) (o : SummaryOutcome) : FlowManager :=
  let update_config := strategyArg.getD st.context_strategy
  let step := summaryStep update_config.strategy (!st.context_messages.isEmpty) messages o
  let messages2 := step.1
  let strat2 := step.2.1
  let warned := step.2.2
  let st1 :=
    if warned then
      if strategyArg.isNone then
        { st with
          context_strategy := { st.context_strategy with strategy := ContextStrategy.RESET },
          logged_warnings := st.logged_warnings ++ ["summary fallback to RESET"] }
      else { st with logged_warnings := st.logged_warnings ++ ["summary fallback to RESET"] }
    else st
  let frame :=
    if st.current_node.isNone ∨ strat2 = ContextStrategy.RESET
        ∨ strat2 = ContextStrategy.RESET_WITH_SUMMARY then
      Frame.messagesUpdate messages2
    else Frame.messagesAppend messages2
  { st1 with queued_frames := st1.queued_frames ++ [frame, Frame.setTools tools] }

/-- Error wrapping of _set_node: every exception inside the try block is
re-raised as FlowError with this message. -/
def wrapErr (node_id m : String) : String := "Failed to set node " ++ node_id ++ ": " ++ m

/-- _set_node (manager.py lines 593-739).  Order of operations, as in
the source: the not-initialized check (before the try block), clearing
the pending transition, validation, clearing deferred post-actions,
registering action handlers from the config, running pre-actions,
building messages, registering functions, updating the LLM context,
committing current_node and current_functions, queueing the context
frame when respond_immediately, and running or deferring post-actions.
Action execution itself is modelled as always succeeding (the handlers
are external); its effect is recorded in executed_actions. -/
def set_node (st : FlowManager) (node_id : String) (cfg : NodeConfig)
    (o : SummaryOutcome) : SetNodeResult :=
  if !st.initialized then
    .err "FlowTransitionError: FlowManager must be initialized first" st
  else
    let st := { st with pending_transition := none }
    match validate_node_config node_id cfg with
    | .error m => .err (wrapErr node_id m) st
    | .ok _ =>
      let st := { st with deferred_post_actions := none }
      match register_actions_from_config st.action_handlers
          (cfg.pre_actions.getD [] ++ cfg.post_actions.getD []) with
      | .error em => .err (wrapErr node_id em.1) { st with action_handlers := em.2 }
      | .ok handlers2 =>
        let st := { st with action_handlers := handlers2 }
        let st := { st with executed_actions := st.executed_actions ++ cfg.pre_actions.getD [] }
        let messages := cfg.role_messages.getD [] ++ cfg.task_messages.getD []
        match register_functions st.current_functions ∅ (cfg.functions.getD []) with
        | .error m => .err (wrapErr node_id m) st
        | .ok new_functions =>
          let tools := (cfg.functions.getD []).map FuncConfig.fname
          let st := update_llm_context st messages tools cfg.context_strategy o
          let st := { st with current_node := some node_id,
                              current_functions := new_functions }
          let respond_immediately := cfg.respond_immediately.getD true
          let st :=
            if respond_immediately then
              { st with queued_frames := st.queued_frames ++ [Frame.contextFrame] }
            else st
          let post := cfg.post_actions.getD []
          let st :=
            if !post.isEmpty then
              if respond_immediately then
                { st with executed_actions := st.executed_actions ++ post }
              else { st with deferred_post_actions := some post }
            else st
          .ok { st with set_node_log := st.set_node_log ++ [node_id] }

/-- Modelled from the spec: ActionManager.fire-deferred-once (actions.py
is not part of the sources): runs the stored batch exactly once, then
clears it, and is a no-op if nothing is scheduled. -/
def fire_deferred_once (st : FlowManager) : FlowManager :=
  match st.deferred_post_actions with
  | none => st
  | some batch =>
    { st with executed_actions := st.executed_actions ++ batch,
              deferred_post_actions := none }

/-- Name lookup in the static node graph (self.nodes). -/
def lookupNode (nodes : List (String × NodeConfig)) (s : String) : Option NodeConfig :=
  (nodes.find? (fun p => decide (p.1 = s))).map Prod.snd

/-- Modelled from the spec: get_or_generate_node_name (types.py is not
part of the sources): the explicit name of the config, or a synthesized
name for an anonymous dynamic config. -/
def get_or_generate_node_name (cfg : NodeConfig) : String :=
  cfg.name.getD "generated_node"

/-- Lift a _set_node result to the pair (state, exception escaped):
inside _execute_transition a raised FlowError is logged and re-raised. -/
def resultToPair : SetNodeResult → FlowManager × Bool
  | .ok st => (st, false)
  | .err _ st => (st, true)

/-- The transition_to and transition_callback branches of
_execute_transition (manager.py lines 459-471).  A transition_to target
missing from self.nodes is a KeyError, logged and re-raised.  A legacy
transition_callback is external user code invoked with the legacy or the
new calling shape depending on its parameter count; its own effects are
outside the engine, so engine state is unchanged here.  When every
branch is falsy nothing happens. -/
def execute_transition_rest (st : FlowManager) (info : TransitionInfo)
    (o : SummaryOutcome) : FlowManager × Bool :=
  if pyTruthyStr info.transition_to then
    match lookupNode st.nodes (info.transition_to.getD "") with
    | some cfg => resultToPair (set_node st (info.transition_to.getD "") cfg o)
    | none => (st, true)
  else
    match info.transition_callback with
    | some _ => (st, false)
    | none => (st, false)

/-- _execute_transition (manager.py lines 440-474): a truthy
function-returned next node is activated first (by name lookup for a
string, directly for an inline config); otherwise the deprecated
transition_to and transition_callback branches run.  Errors are logged
and re-raised (second component true). -/
def execute_transition (st : FlowManager) (info : TransitionInfo)
    (o : SummaryOutcome) : FlowManager × Bool :=
  match info.next_node with
  | some (.named s) =>
    if s = "" then execute_transition_rest st info o
    else
      match lookupNode st.nodes s with
      | some cfg => resultToPair (set_node st s cfg o)
      | none => (st, true)
  | some (.inline cfg) =>
    if cfg.isEmptyDict then execute_transition_rest st info o
    else resultToPair (set_node st (get_or_generate_node_name cfg) cfg o)
  | none => execute_transition_rest st info o

/-- _check_and_execute_transition (manager.py lines 426-438): no-op
without a pending record or while function calls are in progress;
otherwise the record is taken and cleared atomically and the transition
executes.  The committed record is added to the commit_log instrument. -/
def check_and_execute_transition (st : FlowManager) (inProgress : Bool)
    (o : SummaryOutcome) : FlowManager × Bool :=
  match st.pending_transition with
  | none => (st, false)
  | some info =>
    if inProgress then (st, false)
    else
      execute_transition
        { st with pending_transition := none, commit_log := st.commit_log ++ [info] }
        info o

/-- One function invocation completing within a turn: the registration
data of the invoked function plus the result-callback behaviour, exactly
the inputs of transition_func. -/
structure Invocation where
  name : String
  handler : Option HandlerSpec
  transition_to : Option String
  transition_callback : Option Nat
  arguments : FlowArgs
  cb0 : Bool
  cb1 : Bool

/-- Run transition_func for this invocation against the current pending
record. -/
def Invocation.run (inv : Invocation) (p0 : Option TransitionInfo) : InvokeOutcome :=
  transition_func inv.name inv.handler inv.transition_to inv.transition_callback
    inv.arguments inv.cb0 inv.cb1 p0

/-- Whether the delivered result carries on_context_updated, i.e. the
collaborator will invoke _check_and_execute_transition after updating
the context with this result.  Only edge-function results do; the
except branch delivers without properties. -/
def InvokeOutcome.triggersCheck (out : InvokeOutcome) : Bool :=
  out.delivered.any fun d =>
    match d.2 with
    | some p => p.onContextUpdated
    | none => false

/-- Processing of one completing invocation by the collaborator:
transition_func runs (updating the pending record), and if its result
was delivered with on_context_updated set, _check_and_execute_transition
runs with the current in-progress status.  inProgress is true while
other function calls of the turn are still in flight. -/
def processEvent (st : FlowManager) (inv : Invocation) (inProgress : Bool)
    (o : SummaryOutcome) : FlowManager × Bool :=
  let out := inv.run st.pending_transition
  let st1 := { st with pending_transition := out.pending }
  if out.raised then (st1, true)
  else if out.triggersCheck then check_and_execute_transition st1 inProgress o
  else (st1, false)

/-- A whole turn: the listed invocations complete in order; while an
invocation has successors the in-flight count is nonzero, and it reaches
zero exactly when the last one completes.  Returns the final state and
whether any invocation let an exception escape. -/
def processTurn (st : FlowManager) (o : SummaryOutcome) :
    List Invocation → FlowManager × Bool
  | [] => (st, false)
  | inv :: rest =>
    let pr := processEvent st inv (!rest.isEmpty) o
    let pr2 := processTurn pr.1 o rest
    (pr2.1, pr.2 || pr2.2)

/-- The set of names the code actually retains in current_functions after
an activation: the declared names not already in the previous function
set (duplicates collapse in the set). -/
def newFunctionNames (old : Finset String) (fs : List FuncConfig) : Finset String :=
  ((fs.map FuncConfig.fname).filter (fun n => decide (n ∉ old))).toFinset

/-- Claim-side definition, following the words of claim C2: the call is
an edge function iff the handler returned a non-null next node, or a
fixed next-node id was declared, or a legacy transition callback was
declared (nullness, not Python truthiness). -/
def c2_claimed_edge (nn : Option NextNode) (tto : Option String) (tcb : Option Nat) : Bool :=
  nn.isSome || tto.isSome || tcb.isSome

/-- Claim-side definition, following the words of claim C3: the function
names declared by the node, excluding pure edge markers whose names
match existing node ids. -/
def c3_claimed_function_set (nodes : List (String × NodeConfig)) (fs : List FuncConfig) :
    Finset String :=
  ((fs.map FuncConfig.fname).filter
    (fun n => decide (¬ (nodes.map Prod.fst).contains n))).toFinset

/-- A freshly initialized dynamic-mode FlowManager with no current node. -/
def baseFM : FlowManager :=
  { initialized := true, nodes := [], pending_transition := none,
    context_strategy := { strategy := ContextStrategy.APPEND, summary_prompt := none },
    current_node := none, current_functions := ∅, action_handlers := [],
    deferred_post_actions := none, context_messages := [], queued_frames := [],
    executed_actions := [], logged_warnings := [], commit_log := [], set_node_log := [] }

/-- A minimal valid node configuration: one task message, nothing else. -/
def taskCfg : NodeConfig :=
  .mk none none (some ["greet"]) none none none none none

/-- State for the turn scenarios: static graph with node n2, currently
at node A. -/
def turnFM : FlowManager :=
  { baseFM with nodes := [("n2", taskCfg)], current_node := some "A",
                set_node_log := [] }

/-- An edge-function invocation: consolidated handler returning a result
and next node n2; well-behaved result callback. -/
def invEdge1 : Invocation :=
  { name := "go1",
    handler := some (.mk false (.consolidated (some (.value "r1")) (some (.named "n2")))),
    transition_to := none, transition_callback := none, arguments := [],
    cb0 := false, cb1 := false }

/-- A second edge-function invocation targeting n2. -/
def invEdge2 : Invocation :=
  { name := "go2",
    handler := some (.mk false (.consolidated (some (.value "r2")) (some (.named "n2")))),
    transition_to := none, transition_callback := none, arguments := [],
    cb0 := false, cb1 := false }

/-- A node-function invocation: legacy handler returning a bare result,
no transition declared. -/
def invNode : Invocation :=
  { name := "check_status",
    handler := some (.mk false (.bare (.value "ok"))),
    transition_to := none, transition_callback := none, arguments := [],
    cb0 := false, cb1 := false }

/-- The transition record stored by invEdge1. -/
def infoEdge1 : TransitionInfo :=
  { next_node := some (.named "n2"), transition_to := none, transition_callback := none,
    function_name := "go1", arguments := [], result := .value "r1" }

/-- The transition record stored by invEdge2. -/
def infoEdge2 : TransitionInfo :=
  { next_node := some (.named "n2"), transition_to := none, transition_callback := none,
    function_name := "go2", arguments := [], result := .value "r2" }

/-- A pending transition record used to observe whether _set_node
preserves a previously stored record. -/
def recPending : TransitionInfo :=
  { next_node := none, transition_to := some "X", transition_callback := none,
    function_name := "f", arguments := [], result := .acknowledged }

/-- A node configuration with no task_messages key at all. -/
def cfgNoTasks : NodeConfig :=
  .mk none none none none none none none none

/-- A node configuration whose task_messages key is present but holds an
empty message list. -/
def cfgEmptyTasks : NodeConfig :=
  .mk none none (some []) none none none none none

/-- State for the C3 counterexample: the graph contains a node named
target, and no functions are carried over. -/
def c3FM : FlowManager :=
  { baseFM with nodes := [("target", taskCfg)] }

/-- A node declaring a single pure edge marker: a function named after
the existing node target, with no handler and no transitions. -/
def cfgEdgeMarker : NodeConfig :=
  .mk none none (some ["pick a target"]) (some [.schema "target" none none none])
    none none none none

/-- State for the summary-fallback scenarios: engine-wide default
strategy RESET_WITH_SUMMARY and nonempty aggregator history. -/
def summaryFM : FlowManager :=
  { baseFM with
    context_strategy := { strategy := ContextStrategy.RESET_WITH_SUMMARY,
                          summary_prompt := some "Summarize" },
    context_messages := ["hello"], current_node := some "A" }

/-- State with a deferred post-action batch left over from node A. -/
def deferredFM : FlowManager :=
  { baseFM with current_node := some "A",
                deferred_post_actions := some [{ atype := "notifyA", hasHandler := true }] }

/-- Node B for the deferred-post-action scenario: post-actions present
and respond_immediately false, so its batch is deferred. -/
def cfgNodeB : NodeConfig :=
  .mk none none (some ["task b"]) none none
    (some [{ atype := "remindB", hasHandler := true }]) none (some false)

/-- The transition record stored by an invocation whose handler returned
result r and next node name t. -/
def infoOf (inv : Invocation) (t : String) (r : FuncResult) : TransitionInfo :=
  { next_node := some (.named t), transition_to := inv.transition_to,
    transition_callback := inv.transition_callback, function_name := inv.name,
    arguments := inv.arguments, result := r }

/-- State with one function name carried over from the previous node. -/
def carriedFM : FlowManager :=
  { baseFM with current_functions := {"old_fn"} }

/-- A node declaring one carried-over function and one new function. -/
def cfgCarried : NodeConfig :=
  .mk none none (some ["work"])
    (some [.schema "old_fn" (some (.mk false (.bare (.value "a")))) none none,
           .schema "new_fn" (some (.mk false (.bare (.value "b")))) none none])
    none none none none

/-- State with a stored pending transition, used to watch _set_node
clear it on a failed activation. -/
def pendingFM : FlowManager :=
  { baseFM with pending_transition := some recPending }

/-- The turn state at the moment the coordinator commits the go2 record:
record taken and cleared, commit logged. -/
def turnCommitFM : FlowManager :=
  { turnFM with pending_transition := none, commit_log := [infoEdge2] }

theorem update_llm_context_shape (st : FlowManager) (m t : List String)
    (sa : Option ContextStrategyConfig) (o : SummaryOutcome) :
    ∃ cs lw qf, update_llm_context st m t sa o =
      { st with context_strategy := cs, logged_warnings := lw, queued_frames := qf } := by
  unfold update_llm_context
  dsimp only
  split
  · split
    · exact ⟨_, _, _, rfl⟩
    · exact ⟨_, _, _, rfl⟩
  · exact ⟨_, _, _, rfl⟩

@[simp] theorem update_llm_context_current_node (st : FlowManager) (m t : List String)
    (sa : Option ContextStrategyConfig) (o : SummaryOutcome) :
    (update_llm_context st m t sa o).current_node = st.current_node := by
  obtain ⟨cs, lw, qf, hu⟩ := update_llm_context_shape st m t sa o
  rw [hu]

@[simp] theorem update_llm_context_pending (st : FlowManager) (m t : List String)
    (sa : Option ContextStrategyConfig) (o : SummaryOutcome) :
    (update_llm_context st m t sa o).pending_transition = st.pending_transition := by
  obtain ⟨cs, lw, qf, hu⟩ := update_llm_context_shape st m t sa o
  rw [hu]

@[simp] theorem update_llm_context_initialized (st : FlowManager) (m t : List String)
    (sa : Option ContextStrategyConfig) (o : SummaryOutcome) :
    (update_llm_context st m t sa o).initialized = st.initialized := by
  obtain ⟨cs, lw, qf, hu⟩ := update_llm_context_shape st m t sa o
  rw [hu]

@[simp] theorem update_llm_context_nodes (st : FlowManager) (m t : List String)
    (sa : Option ContextStrategyConfig) (o : SummaryOutcome) :
    (update_llm_context st m t sa o).nodes = st.nodes := by
  obtain ⟨cs, lw, qf, hu⟩ := update_llm_context_shape st m t sa o
  rw [hu]

@[simp] theorem update_llm_context_context_messages (st : FlowManager) (m t : List String)
    (sa : Option ContextStrategyConfig) (o : SummaryOutcome) :
    (update_llm_context st m t sa o).context_messages = st.context_messages := by
  obtain ⟨cs, lw, qf, hu⟩ := update_llm_context_shape st m t sa o
  rw [hu]

@[simp] theorem update_llm_context_commit_log (st : FlowManager) (m t : List String)
    (sa : Option ContextStrategyConfig) (o : SummaryOutcome) :
    (update_llm_context st m t sa o).commit_log = st.commit_log := by
  obtain ⟨cs, lw, qf, hu⟩ := update_llm_context_shape st m t sa o
  rw [hu]

@[simp] theorem update_llm_context_set_node_log (st : FlowManager) (m t : List String)
    (sa : Option ContextStrategyConfig) (o : SummaryOutcome) :
    (update_llm_context st m t sa o).set_node_log = st.set_node_log := by
  obtain ⟨cs, lw, qf, hu⟩ := update_llm_context_shape st m t sa o
  rw [hu]

@[simp] theorem update_llm_context_current_functions (st : FlowManager) (m t : List String)
    (sa : Option ContextStrategyConfig) (o : SummaryOutcome) :
    (update_llm_context st m t sa o).current_functions = st.current_functions := by
  obtain ⟨cs, lw, qf, hu⟩ := update_llm_context_shape st m t sa o
  rw [hu]

@[simp] theorem update_llm_context_deferred (st : FlowManager) (m t : List String)
    (sa : Option ContextStrategyConfig) (o : SummaryOutcome) :
    (update_llm_context st m t sa o).deferred_post_actions = st.deferred_post_actions := by
  obtain ⟨cs, lw, qf, hu⟩ := update_llm_context_shape st m t sa o
  rw [hu]

@[simp] theorem update_llm_context_executed (st : FlowManager) (m t : List String)
    (sa : Option ContextStrategyConfig) (o : SummaryOutcome) :
    (update_llm_context st m t sa o).executed_actions = st.executed_actions := by
  obtain ⟨cs, lw, qf, hu⟩ := update_llm_context_shape st m t sa o
  rw [hu]

@[simp] theorem update_llm_context_action_handlers (st : FlowManager) (m t : List String)
    (sa : Option ContextStrategyConfig) (o : SummaryOutcome) :
    (update_llm_context st m t sa o).action_handlers = st.action_handlers := by
  obtain ⟨cs, lw, qf, hu⟩ := update_llm_context_shape st m t sa o
  rw [hu]

theorem register_functions_ok_eq (old : Finset String) (fs : List FuncConfig) :
    ∀ (acc r : Finset String), register_functions old acc fs = .ok r →
      r = acc ∪ newFunctionNames old fs := by
  induction fs with
  | nil =>
    intro acc r h
    simp only [register_functions] at h
    cases h
    simp [newFunctionNames]
  | cons f rest ih =>
    intro acc r h
    simp only [register_functions] at h
    by_cases h1 : f.fname ∈ old
    · rw [if_pos h1] at h
      have := ih acc r h
      simp [newFunctionNames, h1] at this ⊢
      exact this
    · rw [if_neg h1] at h
      split at h
      · cases h
      · have := ih (insert f.fname acc) r h
        simp [newFunctionNames, h1] at this ⊢
        rw [this]

theorem set_node_ok_anatomy {st : FlowManager} {node_id : String} {cfg : NodeConfig}
    {o : SummaryOutcome} {st' : FlowManager} (h : set_node st node_id cfg o = .ok st') :
    st'.current_node = some node_id ∧
    st'.pending_transition = none ∧
    st'.initialized = st.initialized ∧
    st'.nodes = st.nodes ∧
    st'.context_messages = st.context_messages ∧
    st'.commit_log = st.commit_log ∧
    st'.set_node_log = st.set_node_log ++ [node_id] ∧
    st'.current_functions = newFunctionNames st.current_functions (cfg.functions.getD []) ∧
    st'.deferred_post_actions =
      (if (cfg.post_actions.getD []).isEmpty || cfg.respond_immediately.getD true then none
       else some (cfg.post_actions.getD [])) := by
  simp only [set_node] at h
  split at h
  · exact absurd h (by simp)
  · split at h
    · exact absurd h (by simp)
    · split at h
      · exact absurd h (by simp)
      · split at h
        · exact absurd h (by simp)
        next new_functions hreg =>
          injection h with h
          subst h
          have hnf := register_functions_ok_eq st.current_functions
            (cfg.functions.getD []) ∅ new_functions hreg
          refine ⟨?_, ?_, ?_, ?_, ?_, ?_, ?_, ?_, ?_⟩ <;>
            · split <;> split <;> simp_all

theorem update_llm_context_fallback_default (st : FlowManager) (m t : List String)
    (o : SummaryOutcome) (hstrat : st.context_strategy.strategy = .RESET_WITH_SUMMARY)
    (hctx : st.context_messages.isEmpty = false) (hfall : summaryFellBack o = true) :
    update_llm_context st m t none o =
      { st with context_strategy := { st.context_strategy with strategy := ContextStrategy.RESET },
                logged_warnings := st.logged_warnings ++ ["summary fallback to RESET"],
                queued_frames := st.queued_frames ++ [Frame.messagesUpdate m, Frame.setTools t] } := by
  cases o with
  | timeout => simp [update_llm_context, summaryStep, hstrat, hctx]
  | ok s =>
    simp only [summaryFellBack, Bool.not_eq_true'] at hfall
    simp [update_llm_context, summaryStep, hstrat, hctx, hfall]

theorem update_llm_context_fallback_override (st : FlowManager) (m t : List String)
    (cfgS : ContextStrategyConfig) (o : SummaryOutcome)
    (hstrat : cfgS.strategy = .RESET_WITH_SUMMARY)
    (hctx : st.context_messages.isEmpty = false) (hfall : summaryFellBack o = true) :
    update_llm_context st m t (some cfgS) o =
      { st with logged_warnings := st.logged_warnings ++ ["summary fallback to RESET"],
                queued_frames := st.queued_frames ++ [Frame.messagesUpdate m, Frame.setTools t] } := by
  cases o with
  | timeout => simp [update_llm_context, summaryStep, hstrat, hctx]
  | ok s =>
    simp only [summaryFellBack, Bool.not_eq_true'] at hfall
    simp [update_llm_context, summaryStep, hstrat, hctx, hfall]

theorem update_llm_context_reset (st : FlowManager) (m t : List String) (o : SummaryOutcome)
    (hstrat : st.context_strategy.strategy = .RESET) :
    update_llm_context st m t none o =
      { st with queued_frames := st.queued_frames ++ [Frame.messagesUpdate m, Frame.setTools t] } := by
  simp [update_llm_context, summaryStep, hstrat]

theorem processEvent_true (st : FlowManager) (inv : Invocation) (o : SummaryOutcome) :
    processEvent st inv true o =
      ({ st with pending_transition := (inv.run st.pending_transition).pending },
        (inv.run st.pending_transition).raised) := by
  simp only [processEvent]
  split
  · next hr => rw [hr]
  · next hr =>
    simp only [Bool.not_eq_true] at hr
    rw [hr]
    split
    · simp only [check_and_execute_transition]
      split
      · rfl
      · rfl
    · rfl


theorem processTurn_append_last (last : Invocation) (t : String) (r : FuncResult)
    (cfg_t : NodeConfig) (st' : FlowManager) (o : SummaryOutcome)
    (hstep : handlerStep last.handler = .ok (r, some (.named t)))
    (ht : ¬ t = "") (hcb0 : last.cb0 = false) :
    ∀ (evs : List Invocation) (st : FlowManager),
      lookupNode st.nodes t = some cfg_t →
      set_node { st with pending_transition := none,
                         commit_log := st.commit_log ++ [infoOf last t r] } t cfg_t o = .ok st' →
      (processTurn st o (evs ++ [last])).1 = st' := by
  intro evs
  induction evs with
  | nil =>
    intro st hlookup hset
    simp only [List.nil_append, processTurn, List.isEmpty_nil, Bool.not_true]
    simp only [processEvent, Invocation.run, transition_func, hstep, hcb0, pyTruthyNext,
      NextNode.pyTruthy, if_neg ht, Bool.true_or, if_pos, InvokeOutcome.triggersCheck]
    simp only [List.any_cons, List.any_nil, Bool.or_false, Bool.if_true_left,
      check_and_execute_transition, execute_transition, if_neg ht]
    simp only [infoOf] at hset
    simp [hset, resultToPair, hlookup, ht]
  | cons e rest ih =>
    intro st hlookup hset
    have hne : (!(rest ++ [last]).isEmpty) = true := by simp
    simp only [List.cons_append, processTurn, List.append_eq, hne, processEvent_true]
    exact ih { st with pending_transition := (e.run st.pending_transition).pending }
      hlookup hset

/-- C1 (amended): within one turn the coordinator holds at most one
pending TransitionRecord (the field is a single optional slot) and every
edge completion overwrites it; when the in-flight count reaches zero,
PROVIDED the final completing invocation is an edge function, exactly
one transition - the last-stored record - is committed, producing
exactly one node change (one commit_log entry, one set_node_log entry,
current node equal to the last-stored target), regardless of how many
edge completions preceded it in the turn. -/
theorem c1_turn_commits_last_record (evs : List Invocation) (st : FlowManager)
    (last : Invocation) (t : String) (r : FuncResult) (cfg_t : NodeConfig)
    (st' : FlowManager) (o : SummaryOutcome)
    (hstep : handlerStep last.handler = .ok (r, some (.named t)))
    (ht : ¬ t = "") (hcb0 : last.cb0 = false)
    (hlookup : lookupNode st.nodes t = some cfg_t)
    (hset : set_node { st with pending_transition := none,
                               commit_log := st.commit_log ++ [infoOf last t r] }
        t cfg_t o = .ok st') :
    (processTurn st o (evs ++ [last])).1 = st' ∧
    st'.commit_log = st.commit_log ++ [infoOf last t r] ∧
    st'.pending_transition = none ∧
    st'.current_node = some t ∧
    st'.set_node_log = st.set_node_log ++ [t] := by
  have hana := set_node_ok_anatomy hset
  refine ⟨processTurn_append_last last t r cfg_t st' o hstep ht hcb0 evs st hlookup hset,
    ?_, hana.2.1, hana.1, ?_⟩
  · rw [hana.2.2.2.2.2.1]
  · rw [hana.2.2.2.2.2.2.1]

/-- Witness for c1_turn_commits_last_record: a turn with two concurrent
edge completions, go1 then go2; the commit that fires at settle is for
go2, the last-stored record, and the node changes once to n2. -/
theorem c1_turn_commits_last_record_witness :
    (processTurn turnFM SummaryOutcome.timeout [invEdge1, invEdge2]).1.current_node = some "n2" ∧
    (processTurn turnFM SummaryOutcome.timeout [invEdge1, invEdge2]).1.commit_log = [infoEdge2] ∧
    (processTurn turnFM SummaryOutcome.timeout [invEdge1, invEdge2]).1.set_node_log = ["n2"] := by
  have h := c1_turn_commits_last_record [invEdge1] turnFM invEdge2 "n2" (FuncResult.value "r2")
    taskCfg ((set_node turnCommitFM "n2" taskCfg SummaryOutcome.timeout).state)
    SummaryOutcome.timeout rfl (by decide) rfl rfl rfl
  simp only [List.cons_append, List.nil_append] at h
  refine ⟨?_, ?_, ?_⟩
  · rw [h.1]; exact h.2.2.2.1
  · rw [h.1]; exact h.2.1
  · rw [h.1]; exact h.2.2.2.2

/-- C1 counterexample: a turn in which the edge function go1 completes
first (storing its record) and a plain node function completes last.
One edge-function invocation completed before the turn settled, yet when
the in-flight count reaches zero NO transition is committed (empty
commit log, no node set, current node still A) and the record stays
pending: the node-function result carries no on_context_updated
callback, so _check_and_execute_transition never runs at settle.  The
claim promised exactly one committed transition and one node change. -/
theorem c1_counterexample :
    (processTurn turnFM SummaryOutcome.timeout [invEdge1, invNode]).1.commit_log = [] ∧
    (processTurn turnFM SummaryOutcome.timeout [invEdge1, invNode]).1.set_node_log = [] ∧
    (processTurn turnFM SummaryOutcome.timeout [invEdge1, invNode]).1.current_node = some "A" ∧
    (processTurn turnFM SummaryOutcome.timeout [invEdge1, invNode]).1.pending_transition
      = some infoEdge1 ∧
    (processTurn turnFM SummaryOutcome.timeout [invEdge1, invNode]).2 = false :=
  ⟨rfl, rfl, rfl, rfl, rfl⟩

/-- C2 (amended): with a successful handler step and a well-behaved
result callback, the call is an edge function iff the returned next node
is truthy (a non-empty node id or non-empty inline config), or a truthy
(non-empty) transition_to was declared, or a transition_callback was
declared; an edge call is delivered with run_llm false and stores the
transition record, while a node call is delivered with run_llm true and
leaves the pending record as it was. -/
theorem c2_edge_function_characterization (name : String) (handler : Option HandlerSpec)
    (tto : Option String) (tcb : Option Nat) (args : FlowArgs) (cb1 : Bool)
    (p0 : Option TransitionInfo) (r : FuncResult) (nn : Option NextNode)
    (hstep : handlerStep handler = .ok (r, nn)) :
    transition_func name handler tto tcb args false cb1 p0 =
      (if pyTruthyNext nn || pyTruthyStr tto || tcb.isSome then
        { delivered := [(r, some { run_llm := false, onContextUpdated := true })],
          pending := some { next_node := nn, transition_to := tto, transition_callback := tcb,
                            function_name := name, arguments := args, result := r },
          raised := false }
      else
        { delivered := [(r, some { run_llm := true, onContextUpdated := false })],
          pending := p0, raised := false }) := by
  by_cases he : (pyTruthyNext nn || pyTruthyStr tto || tcb.isSome) = true
  · simp [transition_func, hstep, he]
  · simp only [Bool.not_eq_true] at he
    simp [transition_func, hstep, he]

/-- Witness for c2_edge_function_characterization: a consolidated
handler returning next node n2 makes an edge call (record stored,
run_llm false), and a bare handler with no declared transition makes a
node call (run_llm true, pending left alone). -/
theorem c2_edge_function_characterization_witness :
    (transition_func "go1" (some (.mk false (.consolidated (some (.value "r1"))
        (some (.named "n2"))))) none none [] false false none).pending = some infoEdge1 ∧
    (transition_func "check_status" (some (.mk false (.bare (.value "ok"))))
        none none [] false false (some infoEdge1)).pending = some infoEdge1 := by
  have h1 := c2_edge_function_characterization "go1"
    (some (.mk false (.consolidated (some (.value "r1")) (some (.named "n2")))))
    none none [] false none (.value "r1") (some (.named "n2")) rfl
  have h2 := c2_edge_function_characterization "check_status"
    (some (.mk false (.bare (.value "ok"))))
    none none [] false (some infoEdge1) (.value "ok") none rfl
  rw [h1, h2]
  exact ⟨rfl, rfl⟩

/-- C2 counterexample: the handler returns the NON-NULL next node value
named "", so by the claim this is an edge function; the code instead
computes bool(next_node) = False, treats the call as a node function,
delivers it with run_llm true and stores nothing. -/
theorem c2_counterexample :
    c2_claimed_edge (some (NextNode.named "")) none none = true ∧
    transition_func "choose"
        (some (.mk false (.consolidated (some (.value "ok")) (some (.named "")))))
        none none [] false false none =
      { delivered := [(.value "ok", some { run_llm := true, onContextUpdated := false })],
        pending := none, raised := false } :=
  ⟨rfl, rfl⟩

/-- C5 (amended): an exception raised by the handler or by the
handler-shape contract check is caught and converted into a structured
error-status result delivered back through the result callback (not
rethrown), and the coordinator's pending record is exactly what it was
before the invocation; the record store only happens after a successful
handler step, so only a failure of the result delivery itself can occur
after a store. -/
theorem c5_handler_failure_caught (name : String) (handler : Option HandlerSpec)
    (tto : Option String) (tcb : Option Nat) (args : FlowArgs) (cb1 : Bool)
    (p0 : Option TransitionInfo) (m : String)
    (hstep : handlerStep handler = .error m) :
    transition_func name handler tto tcb args false cb1 p0 =
      { delivered := [(.error m, none)], pending := p0, raised := false } := by
  simp [transition_func, hstep, exceptDeliver]

/-- Witness for c5_handler_failure_caught: a raising handler and a
direct function returning a bare value (contract violation), both with a
previously stored record, deliver error results and leave it in place. -/
theorem c5_handler_failure_caught_witness :
    transition_func "boomer" (some (.mk false (.raises "boom"))) none none []
        false false (some recPending) =
      { delivered := [(.error "boom", none)], pending := some recPending, raised := false } ∧
    transition_func "direct_bare" (some (.mk true (.bare (.value "v")))) none none []
        false false (some recPending) =
      { delivered := [(.error "Direct function expected to return a tuple", none)],
        pending := some recPending, raised := false } :=
  ⟨c5_handler_failure_caught "boomer" _ none none [] false (some recPending) "boom" rfl,
   c5_handler_failure_caught "direct_bare" _ none none [] false (some recPending)
     "Direct function expected to return a tuple" rfl⟩

/-- C5 counterexample: the handler succeeds with next node n2, the
record is stored, and then the first result_callback call raises.  The
exception is caught and converted to an error result (conversion holds),
but the coordinator is NOT left untouched: pending went from none to the
stored record of this failed invocation. -/
theorem c5_counterexample :
    transition_func "book" (some (.mk false (.consolidated (some (.value "done"))
        (some (.named "n2"))))) none none [] true false none =
      { delivered := [(.error "result_callback raised", none)],
        pending := some { next_node := some (.named "n2"), transition_to := none,
                          transition_callback := none, function_name := "book",
                          arguments := [], result := .value "done" },
        raised := false } ∧
    (transition_func "book" (some (.mk false (.consolidated (some (.value "done"))
        (some (.named "n2"))))) none none [] true false none).pending ≠ none :=
  ⟨rfl, fun h => Option.noConfusion h⟩

/-- C3 (amended): after every successful activation, current_functions
equals exactly the set of function names declared by the node that were
NOT in the previous current function set; names carried over from the
previous node are skipped (neither re-registered nor retained), and pure
edge markers matching node ids are registered and retained like any
other declared name. -/
theorem c3_function_set_after_activation {st : FlowManager} {node_id : String}
    {cfg : NodeConfig} {o : SummaryOutcome} {st' : FlowManager}
    (h : set_node st node_id cfg o = .ok st') :
    st'.current_functions = newFunctionNames st.current_functions (cfg.functions.getD []) :=
  (set_node_ok_anatomy h).2.2.2.2.2.2.2.1

/-- Witness for c3_function_set_after_activation: activating a node that
declares the carried-over function old_fn and the new function new_fn
leaves exactly new_fn in the function set. -/
theorem c3_function_set_after_activation_witness :
    (set_node carriedFM "B" cfgCarried SummaryOutcome.timeout).state.current_functions
      = newFunctionNames carriedFM.current_functions (cfgCarried.functions.getD []) ∧
    newFunctionNames carriedFM.current_functions (cfgCarried.functions.getD [])
      = {"new_fn"} := by
  have h : set_node carriedFM "B" cfgCarried SummaryOutcome.timeout
      = .ok ((set_node carriedFM "B" cfgCarried SummaryOutcome.timeout).state) := rfl
  exact ⟨c3_function_set_after_activation h, by decide⟩

/-- C3 counterexample: the graph has a node named target and the
activated node declares the single pure edge marker target (no handler,
no transitions).  The claim says the resulting function set excludes
such edge markers, i.e. it should be empty; the code registers the edge
marker like any other function and the set is exactly the singleton
target. -/
theorem c3_counterexample :
    (set_node c3FM "B" cfgEdgeMarker SummaryOutcome.timeout).isOk = true ∧
    (set_node c3FM "B" cfgEdgeMarker SummaryOutcome.timeout).state.current_functions
      = {"target"} ∧
    c3_claimed_function_set c3FM.nodes (cfgEdgeMarker.functions.getD []) = ∅ ∧
    ({"target"} : Finset String) ≠ (∅ : Finset String) :=
  ⟨rfl, rfl, rfl, by decide⟩

/-- C4 (amended): when activation is attempted on an initialized engine
with a node configuration that fails validation (missing task_messages),
an error is raised and the resulting state is exactly the prior state
with the pending transition cleared: current node id, current function
set, deferred post-action queue and every other field are unchanged, but
the pending transition is unconditionally set to None before validation
runs. -/
theorem c4_validation_failure_state (st : FlowManager) (node_id : String) (cfg : NodeConfig)
    (o : SummaryOutcome) (hinit : st.initialized = true)
    (hval : cfg.task_messages.isNone = true) :
    set_node st node_id cfg o =
      .err (wrapErr node_id ("Node " ++ node_id ++ " missing required task_messages field"))
        { st with pending_transition := none } := by
  simp [set_node, hinit, validate_node_config, hval, wrapErr]

/-- Witness for c4_validation_failure_state: activating a config with no
task_messages from a state with a stored pending record raises and
returns the prior state with only the pending record cleared. -/
theorem c4_validation_failure_state_witness :
    set_node pendingFM "B" cfgNoTasks SummaryOutcome.timeout =
      .err (wrapErr "B" ("Node " ++ "B" ++ " missing required task_messages field"))
        { pendingFM with pending_transition := none } :=
  c4_validation_failure_state pendingFM "B" cfgNoTasks SummaryOutcome.timeout rfl rfl

/-- C4 counterexample: a failed validation does mutate engine state.
Starting with a stored pending record and activating an invalid config
(missing task_messages) raises as claimed, but the pending transition is
cleared by the call, not left unchanged: it was cleared at the start of
_set_node, before validation ran. -/
theorem c4_counterexample :
    (set_node pendingFM "B" cfgNoTasks SummaryOutcome.timeout).isOk = false ∧
    pendingFM.pending_transition = some recPending ∧
    (set_node pendingFM "B" cfgNoTasks SummaryOutcome.timeout).state.pending_transition = none ∧
    (set_node pendingFM "B" cfgNoTasks SummaryOutcome.timeout).state.pending_transition
      ≠ pendingFM.pending_transition :=
  ⟨rfl, rfl, rfl, fun h => Option.noConfusion h⟩

/-- C6 (confirmed): an activation whose effective context strategy is
RESET_WITH_SUMMARY, with existing conversation history, and whose
summarization either times out (asyncio.wait_for at 5 seconds) or
returns a falsy summary, logs a warning, applies the messages update as
a plain replace frame with no summary prepended (RESET semantics), and
completes successfully.  The side hypotheses only say the rest of the
activation is well-formed: initialized engine, task messages present, no
pre- or post-actions, and all declared functions registrable. -/
theorem c6_summary_fallback (st : FlowManager) (node_id : String) (cfg : NodeConfig)
    (o : SummaryOutcome) (tm : List String) (nf : Finset String)
    (hinit : st.initialized = true)
    (htm : cfg.task_messages = some tm)
    (hpre : cfg.pre_actions = none) (hpost : cfg.post_actions = none)
    (hreg : register_functions st.current_functions ∅ (cfg.functions.getD []) = .ok nf)
    (hstrat : (cfg.context_strategy.getD st.context_strategy).strategy
      = ContextStrategy.RESET_WITH_SUMMARY)
    (hctx : st.context_messages.isEmpty = false)
    (hfall : summaryFellBack o = true) :
    (set_node st node_id cfg o).isOk = true ∧
    (set_node st node_id cfg o).state.logged_warnings =
      st.logged_warnings ++ ["summary fallback to RESET"] ∧
    (set_node st node_id cfg o).state.queued_frames =
      st.queued_frames ++
        [Frame.messagesUpdate (cfg.role_messages.getD [] ++ tm),
         Frame.setTools ((cfg.functions.getD []).map FuncConfig.fname)] ++
        (if cfg.respond_immediately.getD true then [Frame.contextFrame] else []) := by
  cases hcs : cfg.context_strategy with
  | none =>
    have hstrat2 : st.context_strategy.strategy = ContextStrategy.RESET_WITH_SUMMARY := by
      rw [hcs] at hstrat
      simpa using hstrat
    refine ⟨?_, ?_, ?_⟩ <;>
      (simp [set_node, hinit, validate_node_config, htm, hpre, hpost, hcs,
        register_actions_from_config, hreg, SetNodeResult.isOk, SetNodeResult.state,
        update_llm_context_fallback_default, hstrat2, hctx, hfall]) <;>
      (try (split <;> simp))
  | some cfgS =>
    have hstrat2 : cfgS.strategy = ContextStrategy.RESET_WITH_SUMMARY := by
      rw [hcs] at hstrat
      simpa using hstrat
    refine ⟨?_, ?_, ?_⟩ <;>
      (simp [set_node, hinit, validate_node_config, htm, hpre, hpost, hcs,
        register_actions_from_config, hreg, SetNodeResult.isOk, SetNodeResult.state,
        update_llm_context_fallback_override, hstrat2, hctx, hfall]) <;>
      (try (split <;> simp))

/-- Witness for c6_summary_fallback: a RESET_WITH_SUMMARY engine with
history whose summarization times out still activates the node, with a
warning and a plain replace frame. -/
theorem c6_summary_fallback_witness :
    (set_node summaryFM "B" taskCfg SummaryOutcome.timeout).isOk = true ∧
    (set_node summaryFM "B" taskCfg SummaryOutcome.timeout).state.logged_warnings =
      summaryFM.logged_warnings ++ ["summary fallback to RESET"] ∧
    (set_node summaryFM "B" taskCfg SummaryOutcome.timeout).state.queued_frames =
      summaryFM.queued_frames ++
        [Frame.messagesUpdate (taskCfg.role_messages.getD [] ++ ["greet"]),
         Frame.setTools ((taskCfg.functions.getD []).map FuncConfig.fname)] ++
        (if taskCfg.respond_immediately.getD true then [Frame.contextFrame] else []) :=
  c6_summary_fallback summaryFM "B" taskCfg SummaryOutcome.timeout ["greet"] ∅
    rfl rfl rfl rfl rfl rfl rfl rfl

/-- C7 (amended): activating a node configuration that lacks the
task_messages key entirely fails with a validation error wrapped as
FlowError, and the current node is unchanged by the failed activation.
A task_messages key holding an empty list is NOT rejected (see the
counterexample). -/
theorem c7_missing_task_messages (st : FlowManager) (node_id : String) (cfg : NodeConfig)
    (o : SummaryOutcome) (hinit : st.initialized = true)
    (hmissing : cfg.task_messages = none) :
    (set_node st node_id cfg o).isOk = false ∧
    (set_node st node_id cfg o).state.current_node = st.current_node := by
  have h := c4_validation_failure_state st node_id cfg o hinit (by simp [hmissing])
  rw [h]
  exact ⟨rfl, rfl⟩

/-- Witness for c7_missing_task_messages: a config without task_messages
fails and the current node stays none. -/
theorem c7_missing_task_messages_witness :
    (set_node baseFM "B" cfgNoTasks SummaryOutcome.timeout).isOk = false ∧
    (set_node baseFM "B" cfgNoTasks SummaryOutcome.timeout).state.current_node
      = baseFM.current_node :=
  c7_missing_task_messages baseFM "B" cfgNoTasks SummaryOutcome.timeout rfl rfl

/-- C7 counterexample: a node whose task-messages field is present but
EMPTY (an empty list) is accepted by validation; the activation succeeds
and the current node changes to it, while the claim says it fails with a
validation error and leaves the current node unchanged. -/
theorem c7_counterexample :
    (set_node baseFM "B" cfgEmptyTasks SummaryOutcome.timeout).isOk = true ∧
    (set_node baseFM "B" cfgEmptyTasks SummaryOutcome.timeout).state.current_node = some "B" ∧
    baseFM.current_node = none ∧
    (set_node baseFM "B" cfgEmptyTasks SummaryOutcome.timeout).state.current_node
      ≠ baseFM.current_node :=
  ⟨rfl, rfl, rfl, fun h => Option.noConfusion h⟩

/-- C8 (confirmed): if node A left a deferred post-action batch that has
not fired, successfully activating node B discards it: the deferred
queue after activation is a function of node B's configuration alone
(B's own batch when post-actions are present and respond_immediately is
false, otherwise empty), so A's batch can never fire after B becomes
current - the deferred firing hook runs exactly the stored queue and
clears it. -/
theorem c8_deferred_batch_discarded {st : FlowManager} {node_id : String} {cfg : NodeConfig}
    {o : SummaryOutcome} {st' : FlowManager} (batchA : List ActionConfig)
    (_hA : st.deferred_post_actions = some batchA)
    (h : set_node st node_id cfg o = .ok st') :
    st'.deferred_post_actions =
      (if (cfg.post_actions.getD []).isEmpty || cfg.respond_immediately.getD true then none
       else some (cfg.post_actions.getD [])) ∧
    (fire_deferred_once st').executed_actions =
      st'.executed_actions ++
        (if (cfg.post_actions.getD []).isEmpty || cfg.respond_immediately.getD true then []
         else cfg.post_actions.getD []) ∧
    (fire_deferred_once st').deferred_post_actions = none := by
  have ha := (set_node_ok_anatomy h).2.2.2.2.2.2.2.2
  refine ⟨ha, ?_, ?_⟩ <;>
    · by_cases hc : ((cfg.post_actions.getD []).isEmpty || cfg.respond_immediately.getD true) = true
      · simp [fire_deferred_once, ha, hc]
      · simp only [Bool.not_eq_true] at hc
        simp [fire_deferred_once, ha, hc]

/-- Witness for c8_deferred_batch_discarded: node A left a notifyA
batch; activating node B (deferred remindB batch) replaces it, and
firing the deferred hook runs exactly remindB once. -/
theorem c8_deferred_batch_discarded_witness :
    (set_node deferredFM "B" cfgNodeB SummaryOutcome.timeout).state.deferred_post_actions =
      (if (cfgNodeB.post_actions.getD []).isEmpty || cfgNodeB.respond_immediately.getD true
       then none else some (cfgNodeB.post_actions.getD [])) ∧
    (fire_deferred_once (set_node deferredFM "B" cfgNodeB SummaryOutcome.timeout).state).executed_actions =
      (set_node deferredFM "B" cfgNodeB SummaryOutcome.timeout).state.executed_actions ++
        (if (cfgNodeB.post_actions.getD []).isEmpty || cfgNodeB.respond_immediately.getD true
         then [] else cfgNodeB.post_actions.getD []) := by
  have hok : set_node deferredFM "B" cfgNodeB SummaryOutcome.timeout
      = .ok ((set_node deferredFM "B" cfgNodeB SummaryOutcome.timeout).state) := rfl
  have h := c8_deferred_batch_discarded [{ atype := "notifyA", hasHandler := true }] rfl hok
  exact ⟨h.1, h.2.1⟩

/-- C9 (confirmed): on the very first activation in a session (current
node still None) the messages update is queued as a replace
(LLMMessagesUpdateFrame), never as an append frame, whatever the
configured strategy - including the default APPEND - and whatever the
summarization outcome. -/
theorem c9_first_activation_resets (st : FlowManager) (messages tools : List String)
    (strategyArg : Option ContextStrategyConfig) (o : SummaryOutcome)
    (h : st.current_node = none) :
    ∃ m2, (update_llm_context st messages tools strategyArg o).queued_frames =
      st.queued_frames ++ [Frame.messagesUpdate m2, Frame.setTools tools] := by
  refine ⟨(summaryStep (strategyArg.getD st.context_strategy).strategy
    (!st.context_messages.isEmpty) messages o).1, ?_⟩
  unfold update_llm_context
  dsimp only
  split <;> (try split) <;> simp_all

/-- Witness for c9_first_activation_resets: a fresh engine with the
default APPEND strategy still queues a replace frame for its first
node. -/
theorem c9_first_activation_resets_witness :
    ∃ m2, (update_llm_context baseFM ["m"] [] none (SummaryOutcome.ok (some "s"))).queued_frames =
      baseFM.queued_frames ++ [Frame.messagesUpdate m2, Frame.setTools []] :=
  c9_first_activation_resets baseFM ["m"] [] none (SummaryOutcome.ok (some "s")) rfl

/-- C10 (confirmed): when the engine-wide default strategy object is
RESET_WITH_SUMMARY and an activation without a per-node override falls
back (timeout or falsy summary), the shared default config object itself
is mutated to RESET; every subsequent context update without an override
then takes the plain RESET path - a replace frame, no summarization
attempt and no further warnings - even though it experienced no
failure. -/
theorem c10_default_strategy_mutated (st st1 : FlowManager) (msgs tools : List String)
    (o : SummaryOutcome)
    (h1 : st.context_strategy.strategy = ContextStrategy.RESET_WITH_SUMMARY)
    (h2 : st.context_messages.isEmpty = false)
    (h3 : summaryFellBack o = true)
    (heq : update_llm_context st msgs tools none o = st1) :
    st1.context_strategy = { st.context_strategy with strategy := ContextStrategy.RESET } ∧
    ∀ (msgs2 tools2 : List String) (o2 : SummaryOutcome),
      update_llm_context st1 msgs2 tools2 none o2 =
        { st1 with queued_frames :=
            st1.queued_frames ++ [Frame.messagesUpdate msgs2, Frame.setTools tools2] } := by
  have hu := update_llm_context_fallback_default st msgs tools o h1 h2 h3
  rw [hu] at heq
  subst heq
  refine ⟨rfl, ?_⟩
  intro msgs2 tools2 o2
  exact update_llm_context_reset _ msgs2 tools2 o2 rfl

/-- Witness for c10_default_strategy_mutated: after one timed-out
summarization on the shared default config, the next update (itself
given a successful summary oracle) still runs plain RESET. -/
theorem c10_default_strategy_mutated_witness :
    (update_llm_context summaryFM [] [] none SummaryOutcome.timeout).context_strategy
      = { summaryFM.context_strategy with strategy := ContextStrategy.RESET } ∧
    update_llm_context (update_llm_context summaryFM [] [] none SummaryOutcome.timeout)
        ["x"] [] none (SummaryOutcome.ok (some "late summary")) =
      { (update_llm_context summaryFM [] [] none SummaryOutcome.timeout) with
          queued_frames :=
            (update_llm_context summaryFM [] [] none SummaryOutcome.timeout).queued_frames
              ++ [Frame.messagesUpdate ["x"], Frame.setTools []] } := by
  have h := c10_default_strategy_mutated summaryFM
    (update_llm_context summaryFM [] [] none SummaryOutcome.timeout) [] []
    SummaryOutcome.timeout rfl rfl rfl rfl
  exact ⟨h.1, h.2 ["x"] [] (SummaryOutcome.ok (some "late summary"))⟩
